import Mathlib

/-
Shallow embedding of the AmoCRM <-> Google Sheets synchronization bridge
(main.py).  Pure string and list manipulation is translated directly; the
HTTP backends (Google Sheets, AmoCRM) are modelled as explicit environments
of response functions, and every outbound call a code path performs is
recorded in an explicit call trace, so that claims about "no CRM call is
made" or "this call is retried" become statements about these traces.
-/

set_option autoImplicit false

namespace AmoSync

/-! ## Python string primitives used by main.py -/

/-- ASCII whitespace stripped by Python str.strip(): space, tab, LF, CR,
vertical tab, form feed. -/
def isPySpace (c : Char) : Bool :=
  c == ' ' || c == '\t' || c == '\n' || c == '\r' || c == Char.ofNat 11 || c == Char.ofNat 12

/-- Python str.strip(): drop leading and trailing whitespace. -/
def pstrip (s : String) : String :=
  String.mk (((s.toList.dropWhile isPySpace).reverse.dropWhile isPySpace).reverse)

/-- Python str.isdigit() on the ASCII strings this system handles: non-empty
and all decimal digits. -/
def isDigitString (s : String) : Bool :=
  !s.isEmpty && s.toList.all Char.isDigit

/-- Value of a decimal digit string, as computed by Python int() on the
guarded inputs of parse_row (all characters are digits). -/
def strToNat (s : String) : Nat :=
  s.toList.foldl (fun n c => n * 10 + (c.toNat - 48)) 0

/-- Decimal digit character for a value below 10. -/
def digitChar (d : Nat) : Char := Char.ofNat (48 + d)

/-- Accumulator loop of decimal rendering: peel the last digit off n and
push it onto acc.  The structural fuel only bounds the digit count (for
n ≥ 1, a fuel of n is always enough) and never alters the result. -/
def natCharsAux : Nat → Nat → List Char → List Char
  | _, 0, acc => acc
  | 0, _ + 1, acc => acc
  | fuel + 1, n + 1, acc => natCharsAux fuel ((n + 1) / 10) (digitChar ((n + 1) % 10) :: acc)

/-- Decimal digits of a natural number. -/
def natChars (n : Nat) : List Char :=
  if n = 0 then ['0'] else natCharsAux n n []

/-- Python str() applied to the non-negative integer ids this system handles. -/
def natStr (n : Nat) : String := String.mk (natChars n)

/-! ## normalize_phone (main.py lines 412-420) -/

/-- Body of normalize_phone on the digit list d: two sequential in-place
corrections, exactly as in the source (8xxxxxxxxxx -> 7xxxxxxxxxx, then
a 10-digit number gets a leading 7). -/
def normDigits (d : List Char) : List Char :=
  let d1 := if d.head? = some '8' ∧ d.length = 11 then '7' :: d.tail else d
  if d1.length = 10 then '7' :: d1 else d1

/-- normalize_phone (main.py 412): empty input short-circuits to the empty
string, otherwise all non-digit characters are removed and the two
corrections of normDigits are applied. -/
def normalize_phone (raw : String) : String :=
  if raw = "" then ""
  else String.mk (normDigits (raw.toList.filter Char.isDigit))

/-! ## parse_row (main.py lines 443-455) -/

structure ParsedRow where
  name : String
  phone : String
  email : String
  budget : Nat
  deal_id : String
deriving DecidableEq, Repr

/-- parse_row (main.py 443): missing cells default to the empty string, the
budget cell is parsed as an integer only when its stripped text is all
digits (else 0), and every text field is stripped. -/
def parse_row (row : List String) : ParsedRow :=
  { name := pstrip (row.getD 0 "")
    phone := pstrip (row.getD 1 "")
    email := pstrip (row.getD 2 "")
    budget :=
      if isDigitString (pstrip (row.getD 3 "")) then strToNat (pstrip (row.getD 3 "")) else 0
    deal_id := pstrip (row.getD 4 "") }

/-! ## CRM environment and call traces (push path)

The push path issues three kinds of outbound CRM requests:
GET /contacts?query= (amo_find_contact), POST /contacts (amo_create_contact)
and POST /leads (amo_create_lead).  The CRM backend is modelled as an
environment of response functions; every request a code path performs is
recorded as a CrmCall, so that "performs no CRM calls" is a statement about
the emitted trace. -/

inductive CrmCall where
  /-- GET /contacts with the given query string. -/
  | findContact (query : String)
  /-- POST /contacts with the payload built by amo_create_contact
  (name, normalized phone, email). -/
  | createContact (name phone email : String)
  /-- POST /leads with the given price, linked to the given contact. -/
  | createLead (price : Nat) (contactId : Nat)
deriving DecidableEq, Repr

/-- CRM backend model for the push path.  findStatus and findResults give
the HTTP status and the contact-id list that amo_request hands back for a
GET /contacts?query= request (exhausted-retry exceptions are outside this
model; amo_find_contact only inspects responses that were returned).
createContactId and createLeadId give the ids that successful creation
responses carry. -/
structure CrmEnv where
  findStatus : String → Nat
  findResults : String → List Nat
  createContactId : String → String → String → Nat
  createLeadId : Nat → Nat → Nat

/-- Query rewriting inside amo_find_contact (main.py 193):
q = normalize_phone(query) if "@" not in query else query. -/
def amoQuery (query : String) : String :=
  if query.toList.contains '@' then query else normalize_phone query

/-- amo_find_contact (main.py 190): an empty query returns None without any
request; otherwise one GET /contacts request is issued with the rewritten
query, and the first returned contact id is taken only from a 200 response
(any other handed-back status yields None). -/
def amo_find_contact (env : CrmEnv) (query : String) : Option Nat × List CrmCall :=
  if query = "" then (none, [])
  else
    let q := amoQuery query
    (if env.findStatus q = 200 then (env.findResults q).head? else none,
     [CrmCall.findContact q])

/-- Python truthiness of the optional contact id tested by `if cid:` at
main.py 469: both None and the integer 0 are falsy. -/
def truthyId : Option Nat → Bool
  | none => false
  | some c => c != 0

/-- Contact-resolution loop of process_new_rows (main.py 465-471):
for q in [email, phone]: look q up when non-empty; `if cid:` takes the
first truthy id and breaks, a falsy id (None or 0) falls through to the
next query; contact_id stays None when no lookup produced a truthy id. -/
def resolve_contact (env : CrmEnv) (email phone : String) : Option Nat × List CrmCall :=
  let r1 := if email ≠ "" then amo_find_contact env email else (none, [])
  if truthyId r1.1 then (r1.1, r1.2)
  else
    let r2 := if phone ≠ "" then amo_find_contact env phone else (none, [])
    if truthyId r2.1 then (r2.1, r1.2 ++ r2.2)
    else (none, r1.2 ++ r2.2)

structure CreatedEntry where
  row : Nat
  lead_id : Nat
  contact_id : Nat
deriving DecidableEq, Repr

/-- Loop body of process_new_rows (main.py 461-476) for one sheet row:
skip when the parsed deal_id is non-empty; otherwise resolve or create a
contact (amo_create_contact normalizes the phone before sending, main.py
211), create a lead with price = budget, and report the deal id to be
written back into column E.  Result: (created entries, CRM call trace,
deal id written back). -/
def process_row (env : CrmEnv) (idx : Nat) (row : List String) :
    List CreatedEntry × List CrmCall × Option Nat :=
  let data := parse_row row
  if data.deal_id ≠ "" then ([], [], none)
  else
    let r := resolve_contact env data.email data.phone
    match r.1 with
    | some cid =>
      let lead := env.createLeadId data.budget cid
      ([⟨idx + 2, lead, cid⟩], r.2 ++ [CrmCall.createLead data.budget cid], some lead)
    | none =>
      let nphone := normalize_phone data.phone
      let cid := env.createContactId data.name nphone data.email
      let lead := env.createLeadId data.budget cid
      ([⟨idx + 2, lead, cid⟩],
       r.2 ++ [CrmCall.createContact data.name nphone data.email,
               CrmCall.createLead data.budget cid],
       some lead)

/-- write_deal_id targets cell E(idx+2), i.e. column index 4 of snapshot row
idx (main.py 173-181); Google pads the row with empty cells up to that
column. -/
def setCell (row : List String) (j : Nat) (v : String) : List String :=
  (row ++ List.replicate (j + 1 - row.length) "").set j v

/-- Row loop of process_new_rows: each row is processed against the
snapshot, and the synchronous write_deal_id write-back is reflected in the
resulting sheet state (the run never re-reads the sheet, so the final sheet
is the snapshot with column E of each processed row filled in). -/
def push_loop (env : CrmEnv) : Nat → List (List String) →
    List CreatedEntry × List CrmCall × List (List String)
  | _, [] => ([], [], [])
  | idx, row :: rest =>
    let pr := process_row env idx row
    let row1 := match pr.2.2 with
      | some lead => setCell row 4 (natStr lead)
      | none => row
    let rest1 := push_loop env (idx + 1) rest
    (pr.1 ++ rest1.1, pr.2.1 ++ rest1.2.1, row1 :: rest1.2.2)

structure PushResult where
  created : List CreatedEntry
  checked_rows : Nat
  calls : List CrmCall
  sheet : List (List String)
deriving DecidableEq, Repr

/-- process_new_rows (main.py 458): read all rows, process each in order,
return the created list and the number of checked rows; calls and sheet
record the emitted CRM traffic and the post-run sheet state. -/
def process_new_rows (env : CrmEnv) (rows : List (List String)) : PushResult :=
  let r := push_loop env 0 rows
  ⟨r.1, rows.length, r.2.1, r.2.2⟩

/-! ## amo_request (main.py lines 423-440)

The executor is modelled over an oracle giving, for each attempt index, the
outcome of that httpx.request call: a transport-level failure or a response
with some status.  The trace records how many requests were made, the sleep
durations in seconds, and whether a response was returned or an exception
escaped. -/

inductive AmoOutcome where
  | transportError
  | resp (status : Nat)
deriving DecidableEq, Repr

inductive AmoResult where
  | response (status : Nat)
  | raised
deriving DecidableEq, Repr

structure AmoTrace where
  calls : Nat
  /-- Sleep durations in units of half seconds: the source sleeps
  2 ** attempt / 2 seconds (main.py 431, 437), recorded here as the
  numerator 2 ^ attempt, so an entry d means d / 2 seconds. -/
  delaysHalfSec : List Nat
  result : AmoResult
deriving DecidableEq, Repr

/-- Loop of amo_request over the remaining attempt indices of range(5): a
transport error or a 429/5xx status retries after sleeping 2^attempt / 2
seconds, except on attempt 4, which raises; any other response is returned
immediately.  The exhausted-list case is the unreachable return after the
loop (main.py 440). -/
def amo_request_loop (outcome : Nat → AmoOutcome) : List Nat → AmoTrace
  | [] => ⟨0, [], AmoResult.raised⟩
  | attempt :: rest =>
    match outcome attempt with
    | AmoOutcome.transportError =>
      if attempt = 4 then ⟨1, [], AmoResult.raised⟩
      else
        let t := amo_request_loop outcome rest
        ⟨t.calls + 1, 2 ^ attempt :: t.delaysHalfSec, t.result⟩
    | AmoOutcome.resp s =>
      if s = 429 ∨ (500 ≤ s ∧ s < 600) then
        if attempt = 4 then ⟨1, [], AmoResult.raised⟩
        else
          let t := amo_request_loop outcome rest
          ⟨t.calls + 1, 2 ^ attempt :: t.delaysHalfSec, t.result⟩
      else ⟨1, [], AmoResult.response s⟩

/-- amo_request (main.py 423): for attempt in range(5). -/
def amo_request_trace (outcome : Nat → AmoOutcome) : AmoTrace :=
  amo_request_loop outcome [0, 1, 2, 3, 4]

/-- amo_find_contact issues its GET /contacts through amo_request
(main.py 195). -/
def amo_find_contact_http (outcome : Nat → AmoOutcome) : AmoTrace :=
  amo_request_trace outcome

/-- amo_create_contact issues its POST /contacts through amo_request
(main.py 217). -/
def amo_create_contact_http (outcome : Nat → AmoOutcome) : AmoTrace :=
  amo_request_trace outcome

/-- amo_create_lead issues its POST /leads with a direct httpx.post
(main.py 238), not through amo_request: exactly one request, no retry; the
following raise_for_status raises on any 4xx/5xx response. -/
def amo_create_lead_http (outcome : Nat → AmoOutcome) : AmoTrace :=
  match outcome 0 with
  | AmoOutcome.transportError => ⟨1, [], AmoResult.raised⟩
  | AmoOutcome.resp s =>
    if 400 ≤ s ∧ s < 600 then ⟨1, [], AmoResult.raised⟩
    else ⟨1, [], AmoResult.response s⟩

/-! ## Sheets batch-write retry loop (main.py lines 118-132 and 138-154)

Each chunk submission in commit_sheet_changes runs attempt = 0; while True:
try execute; on an HttpError carrying RATE_LIMIT_EXCEEDED with attempt < 5,
sleep 2^attempt seconds, increment attempt and loop; any other error (or a
rate limit at attempt 5) re-raises. -/

inductive WriteOutcome where
  | ok
  | rateLimit
  | otherError
deriving DecidableEq, Repr

structure RetryTrace where
  calls : Nat
  delays : List Nat
  succeeded : Bool
deriving DecidableEq, Repr

/-- The while-True retry loop at the given attempt counter.  The loop can
iterate at most 6 times (the attempt < 5 guard), so a structural fuel of
6 - attempt never runs out and never alters the result. -/
def sheet_retry_go (outcome : Nat → WriteOutcome) : Nat → Nat → RetryTrace
  | 0, _ => ⟨0, [], false⟩
  | fuel + 1, attempt =>
    match outcome attempt with
    | WriteOutcome.ok => ⟨1, [], true⟩
    | WriteOutcome.otherError => ⟨1, [], false⟩
    | WriteOutcome.rateLimit =>
      if attempt < 5 then
        let t := sheet_retry_go outcome fuel (attempt + 1)
        ⟨t.calls + 1, 2 ^ attempt :: t.delays, t.succeeded⟩
      else ⟨1, [], false⟩

/-- One chunk submission of commit_sheet_changes, starting at attempt 0. -/
def sheet_retry (outcome : Nat → WriteOutcome) : RetryTrace :=
  sheet_retry_go outcome 6 0

/-! ## Batch commit planner: commit_sheet_changes (main.py lines 98-154) -/

/-- Cell value written to the sheet: row_values mixes strings with the
integer price. -/
inductive Value where
  | str (s : String)
  | num (n : Nat)
deriving DecidableEq, Repr

inductive SheetReq where
  /-- One values.batchUpdate request; each datum targets sheet row
  row_idx + 2, range A..F (main.py 113-124). -/
  | batchUpdate (data : List (Nat × List Value))
  /-- One values.append request with a batch of new rows (main.py 141-147). -/
  | batchAppend (values : List (List Value))
deriving DecidableEq, Repr

/-- Worker for chunksOf: each step emits l[: k] and recurses on l[k :].
The structural fuel only bounds the number of chunks (each step consumes at
least one element, so a fuel of the list length is always enough) and never
alters the result. -/
def chunksGo {α : Type} (k : Nat) : Nat → List α → List (List α)
  | _, [] => []
  | 0, _ :: _ => []
  | fuel + 1, a :: rest =>
    if k = 0 then []
    else (a :: rest).take k :: chunksGo k fuel ((a :: rest).drop k)

/-- Slices l[i : i + k] for i in range(0, len(l), k).  The k = 0 case is a
Python ValueError and never occurs (commit_sheet_changes uses 100 and 500). -/
def chunksOf {α : Type} (k : Nat) (l : List α) : List (List α) :=
  chunksGo k l.length l

/-- Dispatch order of commit_sheet_changes: the update loop submits every
chunk of at most chunk_size updates (sheet row = row_idx + 2) before the
append loop submits the chunks of at most 500 new rows.  Each dispatched
request is retried per sheet_retry. -/
def commit_plan (updates : List (Nat × List Value)) (appends : List (List Value))
    (chunk_size : Nat) : List SheetReq :=
  (chunksOf chunk_size updates).map
      (fun ch => SheetReq.batchUpdate (ch.map (fun rv => (rv.1 + 2, rv.2)))) ++
    (chunksOf 500 appends).map (fun ch => SheetReq.batchAppend ch)

/-! ## Pull path: sync_from_amocrm (main.py lines 352-406)

The CRM side of the pull is modelled by a PullEnv: the status map fetched
by get_status_map for the configured pipeline, the list of leads (with their
embedded contact-id lists) returned by fetch_leads_with_contacts, and the
contact records the CRM holds, from which fetch_contacts_by_ids builds its
dictionary. -/

/-- One entry of a custom_fields_values list: a field code and its value
dicts (a missing "value" key is none; the source applies `or ""`). -/
structure CustomField where
  field_code : String
  values : List (Option String)
deriving DecidableEq, Repr

/-- A CRM contact as returned by GET /contacts?ids[]= (name plus custom
fields; a None name is already collapsed to "" by `c.get("name") or ""`). -/
structure CrmContact where
  name : String
  custom_fields : List CustomField
deriving DecidableEq, Repr

structure ContactInfo where
  name : String
  phone : String
  email : String
deriving DecidableEq, Repr

/-- A lead of the pipeline page stream: id, status_id, price (None when the
CRM reports none) and the embedded contact ids. -/
structure Lead where
  id : Nat
  status_id : Nat
  price : Option Nat
  contact_ids : List Nat
deriving DecidableEq, Repr

structure PullEnv where
  status_map : Nat → Option String
  leads : List Lead
  contacts : Nat → Option CrmContact

/-- Per-contact parsing inside fetch_contacts_by_ids (main.py 299-311):
scan the custom fields; a PHONE field with a non-empty values list sets
phone to the normalized first value, an EMAIL field to the raw first value;
later fields overwrite earlier ones. -/
def parseContact (c : CrmContact) : ContactInfo :=
  let pe := c.custom_fields.foldl
    (fun (pe : String × String) cf =>
      let phone := if cf.field_code = "PHONE" then
          match cf.values with
          | [] => pe.1
          | v :: _ => normalize_phone (v.getD "")
        else pe.1
      let email := if cf.field_code = "EMAIL" then
          match cf.values with
          | [] => pe.2
          | v :: _ => v.getD ""
        else pe.2
      (phone, email))
    ("", "")
  ⟨c.name, pe.1, pe.2⟩

/-- fetch_contacts_by_ids (main.py 282): the source requests the ids in
chunks of 50 and collects every returned contact into one dict keyed by
contact id; with the CRM modelled as the partial function env.contacts, the
resulting dict is exactly the restriction of parseContact ∘ env.contacts to
the requested ids. -/
def fetch_contacts_by_ids (env : PullEnv) (ids : List Nat) : Nat → Option ContactInfo :=
  fun i => if ids.contains i then (env.contacts i).map parseContact else none

/-- First embedded contact id of a lead (main.py 368-372). -/
def first_contact (L : Lead) : Option Nat := L.contact_ids.head?

/-- Association-list lookup over Nat keys, first match wins. -/
def alookup {α : Type} : List (Nat × α) → Nat → Option α
  | [], _ => none
  | (k, v) :: m, k2 => if k = k2 then some v else alookup m k2

/-- The lead_contact dict (main.py 366-373): built left to right; a later
lead with the same id overwrites an earlier one, which prepending realizes
for first-match lookup. -/
def lead_contact_alist (leads : List Lead) : List (Nat × Option Nat) :=
  leads.foldl (fun d L => (L.id, first_contact L) :: d) []

/-- contact_ids collection (main.py 365-375): append the first embedded
contact id of each lead when it is truthy (Python treats both None and 0 as
falsy). -/
def collect_contact_ids (leads : List Lead) : List Nat :=
  leads.foldl (fun acc L =>
    match first_contact L with
    | some c => if c ≠ 0 then acc ++ [c] else acc
    | none => acc) []

/-- Association-list lookup over String keys, first match wins. -/
def slookup : List (String × Nat) → String → Option Nat
  | [], _ => none
  | (k, v) :: m, s => if k = s then some v else slookup m s

/-- lead_to_rowidx construction (main.py 356-359), from row i onward:
every row with more than 4 cells and a non-empty cell E contributes
strip(row[4]) -> its index; a later row overwrites an earlier one with the
same key, which putting the later rows first realizes for slookup. -/
def build_rowidx_from (i : Nat) : List (List String) → List (String × Nat)
  | [] => []
  | row :: rest =>
    let m := build_rowidx_from (i + 1) rest
    if 4 < row.length ∧ row.getD 4 "" ≠ "" then m ++ [(pstrip (row.getD 4 ""), i)] else m

/-- lead_to_rowidx for the whole snapshot. -/
def build_rowidx (rows : List (List String)) : List (String × Nat) :=
  build_rowidx_from 0 rows

/-- The contact dict entry used for the row of a lead
(main.py 389: contacts_map.get(lead_contact[L["id"]], {})): a missing or
unfetched contact id yields the empty dict, i.e. three empty fields. -/
def contact_of (env : PullEnv) (L : Lead) : ContactInfo :=
  match (alookup (lead_contact_alist env.leads) L.id).join with
  | some cid => (fetch_contacts_by_ids env (collect_contact_ids env.leads) cid).getD ⟨"", "", ""⟩
  | none => ⟨"", "", ""⟩

/-- row_values built for one lead (main.py 383-394): name, phone, email,
price (`or 0`, which for a non-negative integer is getD 0), the lead id as
a string, and the status label with the raw status id string as fallback. -/
def lead_row (env : PullEnv) (L : Lead) : List Value :=
  let status_name := (env.status_map L.status_id).getD (natStr L.status_id)
  let price := L.price.getD 0
  let c := contact_of env L
  [Value.str c.name, Value.str c.phone, Value.str c.email,
   Value.num price, Value.str (natStr L.id), Value.str status_name]

/-- Loop body of the per-lead dispatch (main.py 396-401): a lead whose id
string is a key of lead_to_rowidx is queued as an update at that row index,
otherwise as an append; the matching counter is incremented. -/
def sync_step (m : List (String × Nat)) (env : PullEnv)
    (acc : List (Nat × List Value) × List (List Value) × Nat × Nat) (L : Lead) :
    List (Nat × List Value) × List (List Value) × Nat × Nat :=
  let lid := natStr L.id
  let row_values := lead_row env L
  match slookup m lid with
  | some i => (acc.1 ++ [(i, row_values)], acc.2.1, acc.2.2.1 + 1, acc.2.2.2)
  | none => (acc.1, acc.2.1 ++ [row_values], acc.2.2.1, acc.2.2.2 + 1)

structure PullResult where
  updates : List (Nat × List Value)
  appends : List (List Value)
  updated : Nat
  inserted : Nat
  fetched : Nat
deriving DecidableEq, Repr

/-- sync_from_amocrm (main.py 352): build lead_to_rowidx from the sheet
snapshot, walk the fetched leads accumulating updates and appends, and
report {updated, inserted, fetched = len(leads)}.  The queues are then
committed through commit_sheet_changes (commit_plan). -/
def sync_from_amocrm (env : PullEnv) (rows : List (List String)) : PullResult :=
  let m := build_rowidx rows
  let acc := env.leads.foldl (sync_step m env) ([], [], 0, 0)
  ⟨acc.1, acc.2.1, acc.2.2.1, acc.2.2.2, env.leads.length⟩

/-- Decidable check that snapshot row i matches deal-reference string s:
the row has more than 4 cells, cell E is non-empty, and its stripped text
equals s. -/
def rowHasRef (rows : List (List String)) (i : Nat) (s : String) : Bool :=
  let row := rows.getD i []
  decide (4 < row.length) && !((row.getD 4 "") == "") && ((pstrip (row.getD 4 "")) == s)

/-! ## Helper lemmas: digits, strip, decimal rendering -/

theorem mk_toList (l : List Char) : (String.mk l).toList = l := rfl

theorem mk_eq_empty_iff (l : List Char) : String.mk l = "" ↔ l = [] := by
  constructor
  · intro h
    have h2 : (String.mk l).toList = ("" : String).toList := by rw [h]
    simpa [mk_toList] using h2
  · intro h
    rw [h]

theorem pyspace_not_digit (c : Char) (h : isPySpace c = true) : c.isDigit = false := by
  simp only [isPySpace, Bool.or_eq_true, beq_iff_eq] at h
  rcases h with ((((h | h) | h) | h) | h) | h <;> subst h <;> decide

theorem digit_not_pyspace (c : Char) (h : c.isDigit = true) : isPySpace c = false := by
  cases hps : isPySpace c
  · rfl
  · have := pyspace_not_digit c hps
    rw [h] at this
    cases this

theorem dropWhile_eq_self_of_false {p : Char → Bool} {l : List Char}
    (h : ∀ c ∈ l, p c = false) : l.dropWhile p = l := by
  cases l with
  | nil => rfl
  | cons a l => simp [List.dropWhile_cons, h a (List.mem_cons_self a l)]

theorem pstrip_of_digits (l : List Char) (h : ∀ c ∈ l, c.isDigit = true) :
    pstrip (String.mk l) = String.mk l := by
  unfold pstrip
  rw [mk_toList,
    dropWhile_eq_self_of_false (fun c hc => digit_not_pyspace c (h c hc)),
    dropWhile_eq_self_of_false
      (fun c hc => digit_not_pyspace c (h c (List.mem_reverse.mp hc))),
    List.reverse_reverse]

theorem digitChar_isDigit (d : Nat) (h : d < 10) : (digitChar d).isDigit = true := by
  interval_cases d <;> decide

theorem natCharsAux_all_digit :
    ∀ (fuel n : Nat) (acc : List Char), (∀ c ∈ acc, c.isDigit = true) →
      ∀ c ∈ natCharsAux fuel n acc, c.isDigit = true := by
  intro fuel
  induction fuel with
  | zero => intro n acc hacc; cases n <;> simpa [natCharsAux] using hacc
  | succ fuel ih =>
    intro n acc hacc
    cases n with
    | zero => simpa [natCharsAux] using hacc
    | succ m =>
      simp only [natCharsAux]
      refine ih _ _ (fun c hc => ?_)
      rcases List.mem_cons.mp hc with h1 | h2
      · subst h1
        exact digitChar_isDigit _ (Nat.mod_lt _ (by omega))
      · exact hacc c h2

theorem natCharsAux_length :
    ∀ (fuel n : Nat) (acc : List Char), acc.length ≤ (natCharsAux fuel n acc).length := by
  intro fuel
  induction fuel with
  | zero => intro n acc; cases n <;> simp [natCharsAux]
  | succ fuel ih =>
    intro n acc
    cases n with
    | zero => simp [natCharsAux]
    | succ m =>
      simp only [natCharsAux]
      calc acc.length ≤ (digitChar ((m + 1) % 10) :: acc).length := by simp
        _ ≤ _ := ih _ _

theorem natChars_all_digit (n : Nat) : ∀ c ∈ natChars n, c.isDigit = true := by
  unfold natChars
  split
  · intro c hc
    simp only [List.mem_singleton] at hc
    subst hc
    decide
  · exact natCharsAux_all_digit _ _ _ (by simp)

theorem natChars_ne_nil (n : Nat) : natChars n ≠ [] := by
  unfold natChars
  split
  · simp
  · rename_i hn
    cases n with
    | zero => exact absurd rfl hn
    | succ m =>
      simp only [natCharsAux]
      intro h
      have := natCharsAux_length m ((m + 1) / 10) [digitChar ((m + 1) % 10)]
      rw [h] at this
      simp at this

theorem natStr_pstrip (n : Nat) : pstrip (natStr n) = natStr n :=
  pstrip_of_digits _ (natChars_all_digit n)

theorem natStr_ne_empty (n : Nat) : natStr n ≠ "" := by
  intro h
  exact natChars_ne_nil n ((mk_eq_empty_iff _).mp h)

/-! ## normalize_phone: characterization, digit closure, idempotence -/

theorem normDigits_eq_chain (d : List Char) :
    normDigits d =
      (if d.length = 11 ∧ d.head? = some '8' then '7' :: d.tail
       else if d.length = 10 then '7' :: d
       else d) := by
  unfold normDigits
  by_cases h1 : d.head? = some '8' ∧ d.length = 11
  · have ht : d.tail.length = 10 := by rw [List.length_tail]; omega
    simp [h1, ht, And.comm]
  · rw [if_neg h1]
    by_cases h2 : d.length = 10
    · simp [h2, fun h : d.length = 11 ∧ d.head? = some '8' => h1 ⟨h.2, h.1⟩]
    · rw [if_neg h2]
      rw [if_neg (fun h : d.length = 11 ∧ d.head? = some '8' => h1 ⟨h.2, h.1⟩)]

theorem normDigits_all_digit (d : List Char) (h : ∀ c ∈ d, c.isDigit = true) :
    ∀ c ∈ normDigits d, c.isDigit = true := by
  rw [normDigits_eq_chain]
  split
  · intro c hc
    rcases List.mem_cons.mp hc with h1 | h2
    · subst h1; decide
    · exact h c (List.mem_of_mem_tail h2)
  · split
    · intro c hc
      rcases List.mem_cons.mp hc with h1 | h2
      · subst h1; decide
      · exact h c h2
    · exact h

theorem normDigits_idem (d : List Char) : normDigits (normDigits d) = normDigits d := by
  rw [normDigits_eq_chain d]
  by_cases h1 : d.length = 11 ∧ d.head? = some '8'
  · rw [if_pos h1, normDigits_eq_chain]
    have ht : d.tail.length = 10 := by rw [List.length_tail]; omega
    simp [ht]
  · rw [if_neg h1]
    by_cases h2 : d.length = 10
    · rw [if_pos h2, normDigits_eq_chain]
      simp [h2]
    · rw [if_neg h2, normDigits_eq_chain, if_neg h1, if_neg h2]

/-- Claim C5: for every input string, normalize_phone strips all non-digit
characters; if the resulting digit string has 11 digits and starts with the
trunk prefix digit 8, that leading digit is replaced with country code
digit 7; if it has exactly 10 digits, a 7 is prepended; otherwise the digit
string is returned unchanged (the empty string for empty input).  The
function is a total Lean function, so it has no failure conditions. -/
theorem C5_normalize_phone_characterization (raw : String) :
    normalize_phone raw =
      (if (raw.toList.filter Char.isDigit).length = 11 ∧
          (raw.toList.filter Char.isDigit).head? = some '8' then
        String.mk ('7' :: (raw.toList.filter Char.isDigit).tail)
       else if (raw.toList.filter Char.isDigit).length = 10 then
        String.mk ('7' :: raw.toList.filter Char.isDigit)
       else String.mk (raw.toList.filter Char.isDigit)) := by
  unfold normalize_phone
  by_cases hraw : raw = ""
  · subst hraw
    simp
  · rw [if_neg hraw, normDigits_eq_chain]
    split
    · rfl
    · split
      · rfl
      · rfl

/-- Claim C6: for every input string, the output of normalize_phone consists only
of digit characters, and normalize_phone is idempotent. -/
theorem C6_normalize_phone_digits_idempotent (s : String) :
    (normalize_phone s).toList.all Char.isDigit = true ∧
      normalize_phone (normalize_phone s) = normalize_phone s := by
  have hdig : ∀ c ∈ (normalize_phone s).toList, c.isDigit = true := by
    intro c hc
    unfold normalize_phone at hc
    by_cases hs : s = ""
    · rw [if_pos hs] at hc
      simp at hc
    · rw [if_neg hs, mk_toList] at hc
      exact normDigits_all_digit _ (fun c2 hc2 => (List.mem_filter.mp hc2).2) c hc
  refine ⟨List.all_eq_true.mpr hdig, ?_⟩
  by_cases hs : s = ""
  · subst hs
    rfl
  · by_cases ht : normalize_phone s = ""
    · rw [ht]
      decide
    · conv_lhs => rw [normalize_phone, if_neg ht]
      have hfilter : (normalize_phone s).toList.filter Char.isDigit = (normalize_phone s).toList :=
        List.filter_eq_self.mpr hdig
    -- the output of one pass is all digits, so the second pass filters
    -- nothing and normDigits is idempotent
      rw [hfilter]
      conv_lhs => rw [show normalize_phone s = String.mk (normDigits (s.toList.filter Char.isDigit)) by
        rw [normalize_phone, if_neg hs]]
      rw [mk_toList, normDigits_idem]
      rw [normalize_phone, if_neg hs]

/-! ## Push-path lemmas -/

theorem process_row_skip (env : CrmEnv) (idx : Nat) (row : List String)
    (h : (parse_row row).deal_id ≠ "") : process_row env idx row = ([], [], none) := by
  simp [process_row, h]

theorem process_row_write_of_empty (env : CrmEnv) (idx : Nat) (row : List String)
    (h : (parse_row row).deal_id = "") : (process_row env idx row).2.2 ≠ none := by
  cases hr : (resolve_contact env (parse_row row).email (parse_row row).phone).1 <;>
    simp [process_row, h, hr]

theorem get?_set_self {α : Type} :
    ∀ (l : List α) (n : Nat) (a : α), n < l.length → (l.set n a).get? n = some a
  | _ :: _, 0, _, _ => rfl
  | _ :: l, n + 1, a, h => get?_set_self l n a (by simpa using h)
  | [], n, _, h => absurd h (by simp)

theorem setCell4_parse_deal_id (row : List String) (v : String) :
    (parse_row (setCell row 4 v)).deal_id = pstrip v := by
  have hlen : 4 < (row ++ List.replicate (5 - row.length) "").length := by
    simp only [List.length_append, List.length_replicate]
    omega
  show pstrip ((setCell row 4 v).getD 4 "") = pstrip v
  rw [setCell, List.getD_eq_getD_get?, get?_set_self _ _ _ hlen]
  rfl

theorem push_loop_skip_all (env : CrmEnv) :
    ∀ (idx : Nat) (rows : List (List String)),
      (∀ r ∈ rows, (parse_row r).deal_id ≠ "") → push_loop env idx rows = ([], [], rows) := by
  intro idx rows
  induction rows generalizing idx with
  | nil => intro _; rfl
  | cons row rest ih =>
    intro h
    have h1 := process_row_skip env idx row (h row (List.mem_cons_self row rest))
    simp [push_loop, h1, ih (idx + 1) (fun r hr => h r (List.mem_cons_of_mem row hr))]

theorem push_loop_refs (env : CrmEnv) :
    ∀ (idx : Nat) (rows : List (List String)) (r : List String),
      r ∈ (push_loop env idx rows).2.2 → (parse_row r).deal_id ≠ "" := by
  intro idx rows
  induction rows generalizing idx with
  | nil => simp [push_loop]
  | cons row rest ih =>
    intro r hr
    cases hw : (process_row env idx row).2.2 with
    | none =>
      simp only [push_loop, hw] at hr
      rcases List.mem_cons.mp hr with h1 | h2
      · subst h1
        intro hd
        exact process_row_write_of_empty env idx r hd hw
      · exact ih (idx + 1) r h2
    | some lead =>
      simp only [push_loop, hw] at hr
      rcases List.mem_cons.mp hr with h1 | h2
      · subst h1
        rw [setCell4_parse_deal_id, natStr_pstrip]
        exact natStr_ne_empty lead
      · exact ih (idx + 1) r h2

/-- Claim C1: a sheet row whose parsed deal_reference is non-empty triggers no
CRM call, no contact creation, no deal creation, and no created-list entry
(process_row yields nothing for it); consequently a second run of
process_new_rows on the sheet state left by any first run — where every
previously processed row has its deal reference written back — performs no
CRM calls at all and creates nothing. -/
theorem C1_deal_reference_rows_skipped (env env1 env2 : CrmEnv) (idx : Nat)
    (row : List String) (rows : List (List String)) :
    ((parse_row row).deal_id ≠ "" → process_row env idx row = ([], [], none)) ∧
      (process_new_rows env2 (process_new_rows env1 rows).sheet).created = [] ∧
      (process_new_rows env2 (process_new_rows env1 rows).sheet).calls = [] := by
  have hall : ∀ r ∈ (push_loop env1 0 rows).2.2, (parse_row r).deal_id ≠ "" :=
    fun r hr => push_loop_refs env1 0 rows r hr
  have hskip := push_loop_skip_all env2 0 (push_loop env1 0 rows).2.2 hall
  refine ⟨process_row_skip env idx row, ?_, ?_⟩ <;>
    simp [process_new_rows, hskip]

/-- Concrete instance of C1: a row with deal reference "7" is skipped
entirely, and a second run over the sheet produced by a first run that
created a deal (id 202 written back) does nothing. -/
theorem C1_witness :
    process_row (⟨fun _ => 404, fun _ => [], fun _ _ _ => 101, fun _ _ => 202⟩ : CrmEnv)
        0 ["Ann", "", "", "", "7"] = ([], [], none) ∧
      (process_new_rows (⟨fun _ => 404, fun _ => [], fun _ _ _ => 101, fun _ _ => 202⟩ : CrmEnv)
          (process_new_rows
            (⟨fun _ => 404, fun _ => [], fun _ _ _ => 101, fun _ _ => 202⟩ : CrmEnv)
            [["Jane Doe", "89991234567", "", ""], ["Ann", "", "", "", "7"]]).sheet).created = [] :=
  ⟨(C1_deal_reference_rows_skipped ⟨fun _ => 404, fun _ => [], fun _ _ _ => 101, fun _ _ => 202⟩
      ⟨fun _ => 404, fun _ => [], fun _ _ _ => 101, fun _ _ => 202⟩
      ⟨fun _ => 404, fun _ => [], fun _ _ _ => 101, fun _ _ => 202⟩
      0 ["Ann", "", "", "", "7"] []).1 (by decide),
   (C1_deal_reference_rows_skipped ⟨fun _ => 404, fun _ => [], fun _ _ _ => 101, fun _ _ => 202⟩
      ⟨fun _ => 404, fun _ => [], fun _ _ _ => 101, fun _ _ => 202⟩
      ⟨fun _ => 404, fun _ => [], fun _ _ _ => 101, fun _ _ => 202⟩
      0 ["Ann", "", "", "", "7"]
      [["Jane Doe", "89991234567", "", ""], ["Ann", "", "", "", "7"]]).2.1⟩

/-- Claim C10: amo_find_contact returns None for an empty query without issuing
any CRM request, returns None (after issuing the one request) for every
handed-back response whose status is not 200, and in that situation the
push path proceeds to create a new contact instead of propagating an
error. -/
theorem C10_find_failure_treated_as_no_match (env : CrmEnv) (q : String) (idx : Nat)
    (row : List String) :
    amo_find_contact env "" = (none, []) ∧
      (q ≠ "" → env.findStatus (amoQuery q) ≠ 200 →
        amo_find_contact env q = (none, [CrmCall.findContact (amoQuery q)])) ∧
      ((parse_row row).deal_id = "" →
        env.findStatus (amoQuery (parse_row row).email) ≠ 200 →
        env.findStatus (amoQuery (parse_row row).phone) ≠ 200 →
        (process_row env idx row).1 =
            [⟨idx + 2,
              env.createLeadId (parse_row row).budget
                (env.createContactId (parse_row row).name
                  (normalize_phone (parse_row row).phone) (parse_row row).email),
              env.createContactId (parse_row row).name
                (normalize_phone (parse_row row).phone) (parse_row row).email⟩] ∧
          CrmCall.createContact (parse_row row).name
              (normalize_phone (parse_row row).phone) (parse_row row).email ∈
            (process_row env idx row).2.1) := by
  refine ⟨by simp [amo_find_contact], fun hq hst => by simp [amo_find_contact, hq, hst], ?_⟩
  intro hd h1 h2
  have hres : (resolve_contact env (parse_row row).email (parse_row row).phone).1 = none := by
    unfold resolve_contact
    by_cases he : (parse_row row).email = "" <;> by_cases hp : (parse_row row).phone = "" <;>
      simp [he, hp, amo_find_contact, truthyId, h1, h2]
  constructor <;> simp [process_row, hd, hres]

/-- Concrete instance of C10: with a CRM that answers 404 to every contact
search, a row with an email and a phone still gets a freshly created
contact and deal. -/
theorem C10_witness :
    ((404 : Nat) ≠ 200) ∧
      ((parse_row ["Bob", "89991234567", "b@x", ""]).deal_id = "") ∧
      (process_row (⟨fun _ => 404, fun _ => [], fun _ _ _ => 101, fun _ _ => 202⟩ : CrmEnv)
            0 ["Bob", "89991234567", "b@x", ""]).1 = [⟨2, 202, 101⟩] ∧
      CrmCall.createContact "Bob" "79991234567" "b@x" ∈
        (process_row (⟨fun _ => 404, fun _ => [], fun _ _ _ => 101, fun _ _ => 202⟩ : CrmEnv)
            0 ["Bob", "89991234567", "b@x", ""]).2.1 := by
  have h := (C10_find_failure_treated_as_no_match
      (⟨fun _ => 404, fun _ => [], fun _ _ _ => 101, fun _ _ => 202⟩ : CrmEnv)
      "q" 0 ["Bob", "89991234567", "b@x", ""]).2.2 (by decide) (by decide) (by decide)
  exact ⟨by decide, by decide, h.1, h.2⟩

/-! ## C7: contact-resolution order and query rewriting -/

/-- The CRM environment used in the C7 instances: every search succeeds
with status 200 and an empty result list. -/
def envNoMatch : CrmEnv := ⟨fun _ => 200, fun _ => [], fun _ _ _ => 1, fun _ _ => 2⟩

/-- Counterexample to C7 as stated: for the unresolved row with email cell
"abc123" (non-empty, but without an at-sign) and empty phone, the one CRM
query issued by contact resolution is the phone-normalized string "123",
not the raw email string "abc123". -/
theorem C7_counterexample :
    (resolve_contact envNoMatch "abc123" "").2 = [CrmCall.findContact "123"] ∧
      CrmCall.findContact "abc123" ∉ (resolve_contact envNoMatch "abc123" "").2 := by
  decide

/-- Claim C7 (amended): resolution queries by email first when the email is
non-empty, then by phone only if still unresolved, the first truthy match
winning — email takes priority over phone, and a returned contact id of 0
is falsy like None and falls through; the query string sent to the CRM is
the raw input exactly when it contains an at-sign, and the phone-normalized
digits otherwise (so a raw email is used only when it contains an
at-sign). -/
theorem C7_email_priority_and_query_rewriting (env : CrmEnv) (email phone s : String) :
    (s.toList.contains '@' = true → amoQuery s = s) ∧
      (s.toList.contains '@' = false → amoQuery s = normalize_phone s) ∧
      (email ≠ "" → truthyId (amo_find_contact env email).1 = true →
        resolve_contact env email phone = amo_find_contact env email) ∧
      (email ≠ "" → truthyId (amo_find_contact env email).1 = false → phone ≠ "" →
        resolve_contact env email phone =
          ((if truthyId (amo_find_contact env phone).1 = true
            then (amo_find_contact env phone).1 else none),
            (amo_find_contact env email).2 ++ (amo_find_contact env phone).2)) ∧
      (email = "" → phone ≠ "" →
        resolve_contact env email phone =
          ((if truthyId (amo_find_contact env phone).1 = true
            then (amo_find_contact env phone).1 else none),
            (amo_find_contact env phone).2)) := by
  refine ⟨fun h => by unfold amoQuery; rw [h]; simp,
    fun h => by unfold amoQuery; rw [h]; simp, ?_, ?_, ?_⟩
  · intro he ht
    simp only [resolve_contact, if_pos he, ht, if_true]
  · intro he ht hp
    simp only [resolve_contact, if_pos he, ht, Bool.false_eq_true, if_false, if_pos hp]
    split <;> rfl
  · intro he hp
    simp only [resolve_contact, he, ite_not, if_pos, truthyId, Bool.false_eq_true, if_false,
      if_pos hp, List.nil_append]
    split <;> rfl

/-- Concrete instance of C7 (amended): with an email containing an at-sign
that matches contact 42 (truthy), resolution returns the email match and
never queries the phone; and with an email lookup returning the falsy
contact id 0, resolution falls through to the phone lookup. -/
theorem C7_witness :
    ("a@b" : String) ≠ "" ∧
      truthyId (amo_find_contact
          (⟨fun _ => 200, fun _ => [42], fun _ _ _ => 1, fun _ _ => 2⟩ : CrmEnv) "a@b").1 = true ∧
      resolve_contact (⟨fun _ => 200, fun _ => [42], fun _ _ _ => 1, fun _ _ => 2⟩ : CrmEnv)
          "a@b" "89991234567" =
        amo_find_contact (⟨fun _ => 200, fun _ => [42], fun _ _ _ => 1, fun _ _ => 2⟩ : CrmEnv)
          "a@b" ∧
      truthyId (amo_find_contact
          (⟨fun _ => 200, fun _ => [0], fun _ _ _ => 1, fun _ _ => 2⟩ : CrmEnv) "a@b").1 = false ∧
      resolve_contact (⟨fun _ => 200, fun _ => [0], fun _ _ _ => 1, fun _ _ => 2⟩ : CrmEnv)
          "a@b" "89991234567" =
        (none, [CrmCall.findContact "a@b", CrmCall.findContact "79991234567"]) :=
  ⟨by decide, by decide,
   (C7_email_priority_and_query_rewriting
      (⟨fun _ => 200, fun _ => [42], fun _ _ _ => 1, fun _ _ => 2⟩ : CrmEnv)
      "a@b" "89991234567" "x").2.2.1 (by decide) (by decide),
   by decide,
   by decide⟩

/-! ## C4: which CRM calls go through the resilient executor -/

/-- Counterexample to C4 as stated: deal creation does not retry.  Under a
CRM that rate-limits the first request and succeeds on the second, the
direct httpx.post of amo_create_lead makes exactly one request and raises,
while the executor would have retried to the 200 response. -/
theorem C4_counterexample :
    (amo_create_lead_http (fun _ => AmoOutcome.resp 429)).calls = 1 ∧
      (amo_create_lead_http (fun _ => AmoOutcome.resp 429)).result = AmoResult.raised ∧
      (amo_request_trace
          (fun n => if n = 0 then AmoOutcome.resp 429 else AmoOutcome.resp 200)).result =
        AmoResult.response 200 := by
  decide

/-- Claim C4 (amended): during a push run, contact search and contact creation
are executed through the resilient executor amo_request and so retry on
429, 5xx and transport failures, but deal creation is issued as a direct
single request that never retries and raises immediately on any 4xx/5xx
response. -/
theorem C4_lead_creation_bypasses_executor (outcome : Nat → AmoOutcome) :
    amo_find_contact_http outcome = amo_request_trace outcome ∧
      amo_create_contact_http outcome = amo_request_trace outcome ∧
      (amo_create_lead_http outcome).calls = 1 ∧
      (outcome 0 = AmoOutcome.resp 429 →
        amo_create_lead_http outcome = ⟨1, [], AmoResult.raised⟩) := by
  refine ⟨rfl, rfl, ?_, ?_⟩
  · cases h : outcome 0 <;> simp [amo_create_lead_http, h]
    split <;> rfl
  · intro h
    simp [amo_create_lead_http, h]

/-- Concrete instance of C4 (amended): a persistent 429 leaves deal
creation with a single raised request. -/
theorem C4_witness :
    (fun _ : Nat => AmoOutcome.resp 429) 0 = AmoOutcome.resp 429 ∧
      amo_create_lead_http (fun _ => AmoOutcome.resp 429) = ⟨1, [], AmoResult.raised⟩ :=
  ⟨rfl, (C4_lead_creation_bypasses_executor (fun _ => AmoOutcome.resp 429)).2.2.2 rfl⟩

/-! ## C3: retry bounds and backoff schedules -/

theorem amo_request_loop_calls_le (outcome : Nat → AmoOutcome) :
    ∀ l : List Nat, (amo_request_loop outcome l).calls ≤ l.length := by
  intro l
  induction l with
  | nil => simp [amo_request_loop]
  | cons attempt rest ih =>
    simp only [amo_request_loop, List.length_cons]
    cases h : outcome attempt with
    | transportError =>
      split_ifs
      · exact Nat.succ_le_succ (Nat.zero_le _)
      · exact Nat.succ_le_succ ih
    | resp s =>
      dsimp only
      split_ifs
      · exact Nat.succ_le_succ (Nat.zero_le _)
      · exact Nat.succ_le_succ ih
      · exact Nat.succ_le_succ (Nat.zero_le _)

theorem sheet_retry_go_calls_le (outcome : Nat → WriteOutcome) :
    ∀ (fuel attempt : Nat), (sheet_retry_go outcome fuel attempt).calls ≤ fuel := by
  intro fuel
  induction fuel with
  | zero => intro attempt; simp [sheet_retry_go]
  | succ fuel ih =>
    intro attempt
    simp only [sheet_retry_go]
    cases h : outcome attempt with
    | ok => exact Nat.succ_le_succ (Nat.zero_le _)
    | otherError => exact Nat.succ_le_succ (Nat.zero_le _)
    | rateLimit =>
      split_ifs
      · exact Nat.succ_le_succ (ih (attempt + 1))
      · exact Nat.succ_le_succ (Nat.zero_le _)

/-- Counterexample to C3 as stated: the spreadsheet batch-write retry path
is not bounded by 5 attempts — under a persistent rate limit it executes
the write 6 times (the initial attempt plus 5 retries). -/
theorem C3_counterexample :
    (sheet_retry (fun _ => WriteOutcome.rateLimit)).calls = 6 ∧
      ¬(sheet_retry (fun _ => WriteOutcome.rateLimit)).calls ≤ 5 := by
  decide

/-- Claim C3 (amended): the CRM request executor is bounded at 5 attempts total,
retries on 429, 5xx and transport failures sleeping 2 ^ attempt / 2
seconds (recorded in half-second units), returns any other response
immediately, and surfaces the failure on the 5th attempt; the spreadsheet
batch-write path retries only rate-limit errors sleeping 2 ^ attempt
seconds, re-raises anything else immediately, and performs up to 6 write
attempts in total (the initial one plus 5 retries) before re-raising. -/
theorem C3_retry_bounds (outcome : Nat → AmoOutcome) (w : Nat → WriteOutcome) (s : Nat) :
    (amo_request_trace outcome).calls ≤ 5 ∧
      (outcome 0 = AmoOutcome.resp s → ¬(s = 429 ∨ (500 ≤ s ∧ s < 600)) →
        amo_request_trace outcome = ⟨1, [], AmoResult.response s⟩) ∧
      amo_request_trace (fun _ => AmoOutcome.resp 429) = ⟨5, [1, 2, 4, 8], AmoResult.raised⟩ ∧
      amo_request_trace (fun _ => AmoOutcome.resp 503) = ⟨5, [1, 2, 4, 8], AmoResult.raised⟩ ∧
      amo_request_trace (fun _ => AmoOutcome.transportError) =
        ⟨5, [1, 2, 4, 8], AmoResult.raised⟩ ∧
      (sheet_retry w).calls ≤ 6 ∧
      sheet_retry (fun _ => WriteOutcome.rateLimit) = ⟨6, [1, 2, 4, 8, 16], false⟩ ∧
      (w 0 = WriteOutcome.otherError → sheet_retry w = ⟨1, [], false⟩) ∧
      (w 0 = WriteOutcome.ok → sheet_retry w = ⟨1, [], true⟩) := by
  refine ⟨amo_request_loop_calls_le outcome [0, 1, 2, 3, 4], ?_, by decide, by decide, by decide,
    sheet_retry_go_calls_le w 6 0, by decide, ?_, ?_⟩
  · intro h0 hs
    simp [amo_request_trace, amo_request_loop, h0, hs]
  · intro h0
    simp [sheet_retry, sheet_retry_go, h0]
  · intro h0
    simp [sheet_retry, sheet_retry_go, h0]

/-- Concrete instance of C3 (amended): a 404 is handed back on the first
attempt, and a clean sheet write succeeds on the first attempt. -/
theorem C3_witness :
    (fun _ : Nat => AmoOutcome.resp 404) 0 = AmoOutcome.resp 404 ∧
      ¬((404 : Nat) = 429 ∨ (500 ≤ 404 ∧ 404 < 600)) ∧
      amo_request_trace (fun _ => AmoOutcome.resp 404) = ⟨1, [], AmoResult.response 404⟩ ∧
      sheet_retry (fun _ => WriteOutcome.ok) = ⟨1, [], true⟩ :=
  ⟨rfl, by decide,
   (C3_retry_bounds (fun _ => AmoOutcome.resp 404) (fun _ => WriteOutcome.ok) 404).2.1 rfl
     (by decide),
   (C3_retry_bounds (fun _ => AmoOutcome.resp 404)
       (fun _ => WriteOutcome.ok) 404).2.2.2.2.2.2.2.2 rfl⟩

/-! ## C8: batch commit planning -/

theorem chunksGo_join {α : Type} (k : Nat) (hk : 0 < k) :
    ∀ (fuel : Nat) (l : List α), l.length ≤ fuel → (chunksGo k fuel l).flatten = l := by
  intro fuel
  induction fuel with
  | zero =>
    intro l hl
    cases l with
    | nil => rfl
    | cons a rest => simp at hl
  | succ fuel ih =>
    intro l hl
    cases l with
    | nil => rfl
    | cons a rest =>
      simp only [chunksGo, if_neg (Nat.pos_iff_ne_zero.mp hk), List.flatten_cons]
      rw [ih ((a :: rest).drop k) (by simp only [List.length_drop]; omega),
        List.take_append_drop]

theorem chunksGo_sizes {α : Type} (k : Nat) :
    ∀ (fuel : Nat) (l : List α),
      ((chunksGo k fuel l).all fun ch => decide (ch.length ≤ k)) = true := by
  intro fuel
  induction fuel with
  | zero => intro l; cases l <;> simp [chunksGo]
  | succ fuel ih =>
    intro l
    cases l with
    | nil => simp [chunksGo]
    | cons a rest =>
      simp only [chunksGo]
      split
      · simp
      · simp only [List.all_cons, Bool.and_eq_true, decide_eq_true_eq]
        exact ⟨by simp only [List.length_take]; omega, ih _⟩

/-- Claim C8: the commit planner partitions updates into chunks of at most
chunk_size (250 updates at chunk_size 100 give batches of 100, 100 and 50)
targeting spreadsheet row row_index + 2, partitions appends into chunks of
at most 500 preserving the input order, and dispatches every update chunk
before any append chunk. -/
theorem C8_commit_plan_chunking (updates : List (Nat × List Value))
    (appends : List (List Value)) (csize : Nat) (hk : 0 < csize) :
    commit_plan updates appends csize =
        (chunksOf csize updates).map
            (fun ch => SheetReq.batchUpdate (ch.map (fun rv => (rv.1 + 2, rv.2)))) ++
          (chunksOf 500 appends).map (fun ch => SheetReq.batchAppend ch) ∧
      (chunksOf csize updates).flatten = updates ∧
      (chunksOf 500 appends).flatten = appends ∧
      ((chunksOf csize updates).all fun ch => decide (ch.length ≤ csize)) = true ∧
      ((chunksOf 500 appends).all fun ch => decide (ch.length ≤ 500)) = true ∧
      (chunksOf 100 (List.replicate 250 ((0, []) : Nat × List Value))).map List.length =
        [100, 100, 50] := by
  refine ⟨rfl, chunksGo_join csize hk _ _ (Nat.le_refl _),
    chunksGo_join 500 (by omega) _ _ (Nat.le_refl _),
    chunksGo_sizes csize _ _, chunksGo_sizes 500 _ _, ?_⟩
  set_option maxRecDepth 8000 in decide

/-- Concrete instance of C8: 250 updates with chunk_size 100 produce the
batch sizes 100, 100, 50. -/
theorem C8_witness :
    (0 : Nat) < 100 ∧
      (chunksOf 100 (List.replicate 250 ((0, []) : Nat × List Value))).map List.length =
        [100, 100, 50] :=
  ⟨by decide, (C8_commit_plan_chunking [] [] 100 (by decide)).2.2.2.2.2⟩

/-! ## C2 and C9: pull-path dispatch -/

theorem slookup_append_some (m1 m2 : List (String × Nat)) (s : String) (v : Nat)
    (h : slookup m1 s = some v) : slookup (m1 ++ m2) s = some v := by
  induction m1 with
  | nil => simp [slookup] at h
  | cons kv m ih =>
    obtain ⟨k, v0⟩ := kv
    simp only [slookup, List.cons_append] at h ⊢
    split at h
    · rename_i hk
      rw [if_pos hk]
      exact h
    · rename_i hk
      rw [if_neg hk]
      exact ih h

theorem slookup_append_none (m1 m2 : List (String × Nat)) (s : String)
    (h : slookup m1 s = none) : slookup (m1 ++ m2) s = slookup m2 s := by
  induction m1 with
  | nil => rfl
  | cons kv m ih =>
    obtain ⟨k, v0⟩ := kv
    simp only [slookup, List.cons_append] at h ⊢
    split at h
    · cases h
    · rename_i hk
      rw [if_neg hk]
      exact ih h

theorem slookup_append_isSome (m1 m2 : List (String × Nat)) (s : String)
    (h : (slookup m1 s).isSome = true) : (slookup (m1 ++ m2) s).isSome = true := by
  obtain ⟨v, hv⟩ := Option.isSome_iff_exists.mp h
  rw [slookup_append_some _ _ _ _ hv]
  rfl

theorem build_rowidx_from_complete :
    ∀ (rows : List (List String)) (i : Nat) (k : Nat) (s : String),
      rowHasRef rows k s = true → (slookup (build_rowidx_from i rows) s).isSome = true := by
  intro rows
  induction rows with
  | nil =>
    intro i k s h
    simp [rowHasRef] at h
  | cons row rest ih =>
    intro i k s h
    cases k with
    | zero =>
      simp only [rowHasRef, List.getD_cons_zero, Bool.and_eq_true, decide_eq_true_eq,
        Bool.not_eq_true', beq_eq_false_iff_ne, beq_iff_eq] at h
      obtain ⟨⟨h1, h2⟩, hkey⟩ := h
      simp only [build_rowidx_from, if_pos (And.intro h1 h2)]
      cases hm : slookup (build_rowidx_from (i + 1) rest) s with
      | some v => exact slookup_append_isSome _ _ _ (by rw [hm]; rfl)
      | none =>
        rw [slookup_append_none _ _ _ hm]
        simp only [slookup]
        rw [if_pos hkey]
        rfl
    | succ k0 =>
      have hrest : rowHasRef rest k0 s = true := by
        simpa [rowHasRef, List.getD_cons_succ] using h
      simp only [build_rowidx_from]
      split
      · cases hm : slookup (build_rowidx_from (i + 1) rest) s with
        | some v => exact slookup_append_isSome _ _ _ (by rw [hm]; rfl)
        | none =>
          have := ih (i + 1) k0 s hrest
          rw [hm] at this
          cases this
      · exact ih (i + 1) k0 s hrest

theorem build_rowidx_from_lookup :
    ∀ (rows : List (List String)) (i : Nat) (s : String) (j : Nat),
      slookup (build_rowidx_from i rows) s = some j →
      ∃ k, k < rows.length ∧ j = i + k ∧ rowHasRef rows k s = true := by
  intro rows
  induction rows with
  | nil =>
    intro i s j h
    simp [build_rowidx_from, slookup] at h
  | cons row rest ih =>
    intro i s j h
    simp only [build_rowidx_from] at h
    split at h
    · rename_i hcond
      cases hm : slookup (build_rowidx_from (i + 1) rest) s with
      | some j0 =>
        rw [slookup_append_some _ _ _ _ hm] at h
        have hj0 : j0 = j := Option.some.inj h
        obtain ⟨k, hk, hj, hr⟩ := ih (i + 1) s j0 hm
        refine ⟨k + 1, by simp only [List.length_cons]; omega, by omega, ?_⟩
        simpa [rowHasRef, List.getD_cons_succ] using hr
      | none =>
        rw [slookup_append_none _ _ _ hm] at h
        simp only [slookup] at h
        split at h
        · rename_i hkey
          have hij : i = j := Option.some.inj h
          refine ⟨0, by simp, by omega, ?_⟩
          simp only [rowHasRef, List.getD_cons_zero, Bool.and_eq_true, decide_eq_true_eq,
            Bool.not_eq_true', beq_eq_false_iff_ne, beq_iff_eq]
          exact ⟨⟨hcond.1, hcond.2⟩, hkey⟩
        · cases h
    · obtain ⟨k, hk, hj, hr⟩ := ih (i + 1) s j h
      refine ⟨k + 1, by simp only [List.length_cons]; omega, by omega, ?_⟩
      simpa [rowHasRef, List.getD_cons_succ] using hr

theorem sync_foldl (m : List (String × Nat)) (env : PullEnv) :
    ∀ (leads : List Lead) (ups : List (Nat × List Value)) (aps : List (List Value)) (u n : Nat),
      leads.foldl (sync_step m env) (ups, aps, u, n) =
        (ups ++ (leads.filter (fun L => (slookup m (natStr L.id)).isSome)).map
            (fun L => ((slookup m (natStr L.id)).getD 0, lead_row env L)),
          aps ++ (leads.filter (fun L => (slookup m (natStr L.id)).isNone)).map
            (fun L => lead_row env L),
          u + (leads.filter (fun L => (slookup m (natStr L.id)).isSome)).length,
          n + (leads.filter (fun L => (slookup m (natStr L.id)).isNone)).length) := by
  intro leads
  induction leads with
  | nil =>
    intro ups aps u n
    simp
  | cons L rest ih =>
    intro ups aps u n
    simp only [List.foldl_cons]
    cases hl : slookup m (natStr L.id) with
    | some i =>
      have hstep : sync_step m env (ups, aps, u, n) L =
          (ups ++ [(i, lead_row env L)], aps, u + 1, n) := by
        simp [sync_step, hl]
      rw [hstep, ih]
      refine congrArg₂ Prod.mk ?_ (congrArg₂ Prod.mk ?_ (congrArg₂ Prod.mk ?_ ?_))
      · simp [List.filter_cons, hl, List.append_assoc]
      · simp [List.filter_cons, hl]
      · simp only [List.filter_cons, hl, Option.isSome_some, if_true, List.length_cons]
        omega
      · simp [List.filter_cons, hl]
    | none =>
      have hstep : sync_step m env (ups, aps, u, n) L =
          (ups, aps ++ [lead_row env L], u, n + 1) := by
        simp [sync_step, hl]
      rw [hstep, ih]
      refine congrArg₂ Prod.mk ?_ (congrArg₂ Prod.mk ?_ (congrArg₂ Prod.mk ?_ ?_))
      · simp [List.filter_cons, hl]
      · simp [List.filter_cons, hl, List.append_assoc]
      · simp [List.filter_cons, hl]
      · simp only [List.filter_cons, hl, Option.isNone_none, if_true, List.length_cons]
        omega

theorem length_filter_some_add_none (f : Lead → Option Nat) (l : List Lead) :
    (l.filter (fun L => (f L).isSome)).length + (l.filter (fun L => (f L).isNone)).length =
      l.length := by
  induction l with
  | nil => rfl
  | cons L rest ih =>
    cases hf : f L <;> simp [List.filter_cons, hf] <;> omega

/-- Claim C2: for every fetched deal, the 6-field row
[name, phone, email, price (0 when the CRM reports none), deal id as a
string, status label with the raw status id string as fallback] is built;
a deal whose id string is found among the trimmed non-empty deal-reference
cells of the snapshot is queued as an update at the index of that row, and every
other deal is queued as exactly one append.  The last two conjuncts tie the
dispatch condition to the sheet in both directions: a mapped id points at a
matching row (soundness), and any row matching the id makes the lookup
succeed, so such a deal is queued as an update and never appended
(completeness). -/
theorem C2_pull_update_or_append (env : PullEnv) (rows : List (List String)) (s : String)
    (j : Nat) (L : Lead) :
    (sync_from_amocrm env rows).updates =
        (env.leads.filter (fun L2 => (slookup (build_rowidx rows) (natStr L2.id)).isSome)).map
          (fun L2 => ((slookup (build_rowidx rows) (natStr L2.id)).getD 0, lead_row env L2)) ∧
      (sync_from_amocrm env rows).appends =
        (env.leads.filter (fun L2 => (slookup (build_rowidx rows) (natStr L2.id)).isNone)).map
          (fun L2 => lead_row env L2) ∧
      lead_row env L =
        [Value.str (contact_of env L).name, Value.str (contact_of env L).phone,
         Value.str (contact_of env L).email, Value.num (L.price.getD 0),
         Value.str (natStr L.id),
         Value.str ((env.status_map L.status_id).getD (natStr L.status_id))] ∧
      (slookup (build_rowidx rows) s = some j → rowHasRef rows j s = true) ∧
      (rowHasRef rows j s = true → (slookup (build_rowidx rows) s).isSome = true) := by
  refine ⟨?_, ?_, rfl, ?_, build_rowidx_from_complete rows 0 j s⟩
  · show (env.leads.foldl (sync_step (build_rowidx rows) env) ([], [], 0, 0)).1 = _
    rw [sync_foldl]
    simp
  · show (env.leads.foldl (sync_step (build_rowidx rows) env) ([], [], 0, 0)).2.1 = _
    rw [sync_foldl]
    simp
  · intro h
    obtain ⟨k, _, hjk, hr⟩ := build_rowidx_from_lookup rows 0 s j h
    rwa [show j = k by omega]

/-- The pull environment used in the C2 instance: one pipeline status
67260282 labelled "In progress", one lead 555 linked to contact 9, and
contact 9 with a phone and an email custom field. -/
def pullEnvExample : PullEnv :=
  ⟨fun sid => if sid = 67260282 then some "In progress" else none,
   [⟨555, 67260282, none, [9]⟩],
   fun i => if i = 9 then
      some ⟨"Bob", [⟨"PHONE", [some "89991234567"]⟩, ⟨"EMAIL", [some "b@x"]⟩]⟩
    else none⟩

/-- Concrete instance of C2: deal 555 matches the sheet row whose cell E is
" 555 " and is queued as an update at row index 0 with the 6-field row;
with an empty sheet it is queued as exactly one append. -/
theorem C2_witness :
    slookup (build_rowidx [["n", "p", "e", "b", " 555 "]]) "555" = some 0 ∧
      rowHasRef [["n", "p", "e", "b", " 555 "]] 0 "555" = true ∧
      (sync_from_amocrm pullEnvExample [["n", "p", "e", "b", " 555 "]]).updates =
        [(0, [Value.str "Bob", Value.str "79991234567", Value.str "b@x",
              Value.num 0, Value.str "555", Value.str "In progress"])] ∧
      (sync_from_amocrm pullEnvExample []).appends =
        [[Value.str "Bob", Value.str "79991234567", Value.str "b@x",
          Value.num 0, Value.str "555", Value.str "In progress"]] ∧
      (slookup (build_rowidx [["n", "p", "e", "b", " 555 "]]) "555").isSome = true :=
  ⟨by decide,
   (C2_pull_update_or_append pullEnvExample [["n", "p", "e", "b", " 555 "]] "555" 0
      ⟨555, 67260282, none, [9]⟩).2.2.2.1 (by decide),
   by decide, by decide,
   (C2_pull_update_or_append pullEnvExample [["n", "p", "e", "b", " 555 "]] "555" 0
      ⟨555, 67260282, none, [9]⟩).2.2.2.2 (by decide)⟩

/-- Claim C9: the summary returned by sync_from_amocrm always satisfies
updated + inserted = fetched, where fetched is the number of deals
retrieved from the pipeline: every fetched deal is counted exactly once,
as either an update or an insert. -/
theorem C9_updated_plus_inserted_eq_fetched (env : PullEnv) (rows : List (List String)) :
    (sync_from_amocrm env rows).updated + (sync_from_amocrm env rows).inserted =
        (sync_from_amocrm env rows).fetched ∧
      (sync_from_amocrm env rows).fetched = env.leads.length := by
  refine ⟨?_, rfl⟩
  show (env.leads.foldl (sync_step (build_rowidx rows) env) ([], [], 0, 0)).2.2.1 +
      (env.leads.foldl (sync_step (build_rowidx rows) env) ([], [], 0, 0)).2.2.2 =
    env.leads.length
  rw [sync_foldl]
  simpa using length_filter_some_add_none
    (fun L => slookup (build_rowidx rows) (natStr L.id)) env.leads

end AmoSync
